import Mathlib

/-!
Shallow embedding of the job-orchestration entry points of the livepeer node
(`cmd/livepeer/livepeer.go`): the job-event handler goroutine installed by
`setupTranscoder`, the startup sequence of `setupTranscoder` itself, the three
chain timeout constants, and the key-material loader `getLPKeys`.

External collaborators (the chain client, the `eth` helpers, the transcoding
node and the libp2p crypto library) are modelled as explicit environments or
small executable stand-ins, so that the control flow written in `livepeer.go`
is the only thing the definitions encode.
-/

namespace Livepeer

/-! ## Chain timeout constants (livepeer.go lines 40-42), in seconds. -/

/-- `EthRpcTimeout = 10 * time.Second`. -/
def EthRpcTimeout : Nat := 10

/-- `EthEventTimeout = 30 * time.Second`. -/
def EthEventTimeout : Nat := 30

/-- `EthMinedTxTimeout = 60 * time.Second`. -/
def EthMinedTxTimeout : Nat := 60

/-! ## The job-event handler goroutine of `setupTranscoder` (lines 331-377).

The goroutine body is
```
select {
case l := <-logsCh:
    tx, _, err := n.Eth.Backend().TransactionByHash(ctx, l.TxHash)
    if err != nil { glog.Errorf(...) }
    strmId, tData, err := eth.ParseJobTxData(tx.Data())
    if err != nil { glog.Errorf(...) }
    jid, _, _, _, err := eth.GetInfoFromJobEvent(l, n.Eth)
    if err != nil { glog.Errorf(...) }
    profile, ok := types.VideoProfileLookup[tData]
    if !ok { glog.Errorf(...); return core.ErrTranscode }
    tProfiles := []types.VideoProfile{profile}
    config := net.TranscodeConfig{StrmID: strmId, Profiles: tProfiles,
                                  JobID: jid, PerformOnchainClaim: true}
    cm := core.NewClaimManager(strmId, jid, tProfiles, n.Eth)
    strmIDs, err := n.Transcode(config, cm)
    if err != nil { glog.Errorf(...) }
    sid := core.StreamID(strmId)
    err = n.NotifyBroadcaster(sid.GetNodeID(), sid,
            map[core.StreamID]types.VideoProfile{strmIDs[0]: types.VideoProfileLookup[tData]})
    if err != nil { glog.Errorf(...) }
    return nil
}
```
Every `if err != nil` only logs: in Go, `TransactionByHash` returns a nil
`tx` together with its error (so `tx.Data()` then faults), and a failed
`Transcode` leaves `strmIDs` empty (so `strmIDs[0]` then faults).  The
`select` has a single receive case and the function returns after it, so the
goroutine consumes exactly one event from `logsCh`.
-/

/-- A raw chain log entry; only its transaction hash is consulted by the
handler. -/
structure Log where
  txHash : Nat
deriving DecidableEq

/-- The resolved transaction; the handler only reads its payload via
`tx.Data()`. -/
structure Tx where
  data : List Nat
deriving DecidableEq

/-- An entry of the static video-profile catalog
(`types.VideoProfileLookup`). -/
structure VideoProfile where
  name : String
deriving DecidableEq

/-- `net.TranscodeConfig` (net package source): stream ID, requested
profiles, on-chain claim flag and job ID (`*big.Int`, `none` = nil). -/
structure TranscodeConfig where
  StrmID : String
  Profiles : List VideoProfile
  PerformOnchainClaim : Bool
  JobID : Option Int
deriving DecidableEq

/-- The collaborators the handler calls, as response functions.  Go returns
value-and-error pairs; where the handler keeps using the value after a
logged error, the model returns the value together with an error flag. -/
structure ChainEnv where
  /-- `TransactionByHash`: on error the returned transaction is nil,
  modelled by `Except.error`. -/
  transactionByHash : Nat → Except Unit Tx
  /-- `eth.ParseJobTxData`: `(strmId, tData)` plus an error flag; the Go
  code keeps the returned (zero) values after a logged error. -/
  parseJobTxData : List Nat → (String × String) × Bool
  /-- `eth.GetInfoFromJobEvent`: the job ID plus an error flag. -/
  getInfoFromJobEvent : Log → Option Int × Bool
  /-- `types.VideoProfileLookup` map lookup. -/
  videoProfileLookup : String → Option VideoProfile
  /-- `n.Transcode`: derived stream IDs plus an error flag; on failure the
  slice is empty. -/
  transcode : TranscodeConfig → List String × Bool
  /-- `core.StreamID.GetNodeID` of the source stream ID. -/
  getNodeID : String → String

/-- How one run of the handler body ends. -/
inductive HandlerOutcome
  /-- `tx.Data()` dereferences the nil transaction returned together with a
  `TransactionByHash` error. -/
  | panicNilTx
  /-- early `return core.ErrTranscode` on an unknown profile tag. -/
  | errTranscode
  /-- `strmIDs[0]` indexes an empty slice after `Transcode` produced no
  derived streams. -/
  | panicIndex
  /-- `return nil` after notifying the broadcaster. -/
  | ok
deriving DecidableEq

/-- Observable trace of one run of the handler body: its outcome, the
transaction hashes it resolved, the `Transcode` invocations and the
`NotifyBroadcaster` invocations (target node, source stream, derived-stream
assignment). -/
structure HandlerTrace where
  outcome : HandlerOutcome
  txLookups : List Nat
  transcodeCalls : List TranscodeConfig
  notifyCalls : List (String × String × List (String × VideoProfile))
deriving DecidableEq

/-- The body of the `case l := <-logsCh:` branch, translated statement by
statement from `setupTranscoder` (lines 334-374). -/
def jobEventHandler (env : ChainEnv) (l : Log) : HandlerTrace :=
  match env.transactionByHash l.txHash with
  | .error _ =>
      -- the error is only logged; `tx` is nil and `tx.Data()` faults
      { outcome := .panicNilTx, txLookups := [l.txHash],
        transcodeCalls := [], notifyCalls := [] }
  | .ok tx =>
      let strmId := (env.parseJobTxData tx.data).1.1
      let tData := (env.parseJobTxData tx.data).1.2
      let jid := (env.getInfoFromJobEvent l).1
      match env.videoProfileLookup tData with
      | none =>
          -- `return core.ErrTranscode`: no config, no Transcode, no notify
          { outcome := .errTranscode, txLookups := [l.txHash],
            transcodeCalls := [], notifyCalls := [] }
      | some profile =>
          let config : TranscodeConfig :=
            { StrmID := strmId, Profiles := [profile],
              PerformOnchainClaim := true, JobID := jid }
          match (env.transcode config).1 with
          | [] =>
              -- the `Transcode` error is only logged; `strmIDs[0]` faults
              { outcome := .panicIndex, txLookups := [l.txHash],
                transcodeCalls := [config], notifyCalls := [] }
          | s0 :: _ =>
              { outcome := .ok, txLookups := [l.txHash],
                transcodeCalls := [config],
                notifyCalls := [(env.getNodeID strmId, strmId, [(s0, profile)])] }

/-- The whole goroutine: a single `select` with one receive case followed by
`return`, so only the first delivered event is ever read; with no delivery
the goroutine blocks forever and produces nothing. -/
def listenerRun (env : ChainEnv) (events : List Log) : List HandlerTrace :=
  match events with
  | [] => []
  | l :: _ => [jobEventHandler env l]

/-! ## The startup sequence of `setupTranscoder` (lines 305-330). -/

/-- Outcomes of the chain queries made during `setupTranscoder` startup. -/
structure SetupEnv where
  /-- `n.Eth.IsActiveTranscoder()`. -/
  isActiveTranscoder : Except Unit Bool
  /-- `n.Eth.TranscoderStake()`. -/
  transcoderStake : Except Unit Int
  /-- `n.Eth.SubscribeToJobEvent(...)`. -/
  subscribeToJobEvent : Except Unit Unit

/-- What `setupTranscoder` did before returning: whether and with which
interval (seconds) the reward manager loop was started, whether the job-event
subscription was made, whether the stake query ran, and whether setup was
aborted. -/
structure SetupStartup where
  rewardManagerIntervalSeconds : Option Nat
  subscribeAttempted : Bool
  stakeQueried : Bool
  aborted : Bool
deriving DecidableEq

/-- `setupTranscoder` startup, lines 305-330: the active-transcoder query
error is only logged (leaving `active` at its zero value `false`); an
inactive result is only logged; an active result triggers the stake query,
whose error is also only logged.  Unconditionally afterwards:
`core.NewRewardManager(time.Second*5, n.Eth)` is started and
`SubscribeToJobEvent` is called (its error only logged; the function still
returns `sub, nil`). -/
def setupTranscoderStartup (env : SetupEnv) : SetupStartup :=
  let active := match env.isActiveTranscoder with
    | .error _ => false
    | .ok b => b
  if !active then
    -- "Transcoder %v is inactive" is logged; no stake query
    { rewardManagerIntervalSeconds := some 5, subscribeAttempted := true,
      stakeQueried := false, aborted := false }
  else
    -- stake query; its error is only logged
    { rewardManagerIntervalSeconds := some 5, subscribeAttempted := true,
      stakeQueried := true, aborted := false }

/-! ## Key material: `getLPKeys` (lines 208-292).

The libp2p crypto library and the JSON codec are external; they are modelled
by small executable stand-ins with the contracts the code relies on: each
marshalling layer tags its output and its partial inverse rejects anything
not carrying the tag (so corrupt data fails to decode), and decoding is a
left inverse of encoding. -/

/-- Model of a libp2p private key; `material` stands for the raw key
material. -/
structure PrivKey where
  material : List Nat
deriving DecidableEq

/-- Model of a libp2p public key. -/
structure PubKey where
  material : List Nat
deriving DecidableEq

/-- `priv.Bytes()`: protobuf-marshalled private key (tag 1). -/
def cryptoMarshalPriv (k : PrivKey) : List Nat := 1 :: k.material

/-- `crypto.UnmarshalPrivateKey`: fails unless the bytes carry the
private-key tag. -/
def cryptoUnmarshalPriv : List Nat → Except Unit PrivKey
  | [] => .error ()
  | t :: bs => if t = 1 then .ok ⟨bs⟩ else .error ()

/-- `pub.Bytes()`: protobuf-marshalled public key (tag 2). -/
def cryptoMarshalPub (k : PubKey) : List Nat := 2 :: k.material

/-- `crypto.UnmarshalPublicKey`: fails unless the bytes carry the
public-key tag. -/
def cryptoUnmarshalPub : List Nat → Except Unit PubKey
  | [] => .error ()
  | t :: bs => if t = 2 then .ok ⟨bs⟩ else .error ()

/-- `crypto.ConfigEncodeKey`: base64 string of the bytes (tag 3 marks a
well-formed encoding). -/
def configEncodeKey (bs : List Nat) : List Nat := 3 :: bs

/-- `crypto.ConfigDecodeKey`: fails on a string that is not a well-formed
encoding. -/
def configDecodeKey : List Nat → Except Unit (List Nat)
  | [] => .error ()
  | t :: bs => if t = 3 then .ok bs else .error ()

/-- `type LPKeyFile struct { Pub string; Priv string }` (lines 208-211); the
two fields hold encoded strings. -/
structure LPKeyFile where
  Pub : List Nat
  Priv : List Nat
deriving DecidableEq

/-- Contents of `keys.json`: either a JSON record of an `LPKeyFile`, or
arbitrary other bytes (corrupt JSON). -/
inductive FileContent
  | jsonKeyFile (pub priv : List Nat)
  | other (raw : List Nat)
deriving DecidableEq

/-- `json.Marshal` of an `LPKeyFile` (total on this struct). -/
def jsonMarshalKeyFile (kf : LPKeyFile) : FileContent :=
  .jsonKeyFile kf.Pub kf.Priv

/-- `json.Unmarshal` into an `LPKeyFile`: fails on anything that is not the
JSON record. -/
def jsonUnmarshalKeyFile : FileContent → Except Unit LPKeyFile
  | .jsonKeyFile p q => .ok ⟨p, q⟩
  | .other _ => .error ()

/-- The `gen` flag chain of `getLPKeys` (lines 222-261): read `keys.json`
(`none` models `ioutil.ReadFile` failing), `json.Unmarshal`, decode
`keyf.Priv`, decode `keyf.Pub`, unmarshal the private key, unmarshal the
public key; any failure sets `gen = true`, modelled as `none`. -/
def loadKeyFile (fs : Option FileContent) : Option (PrivKey × PubKey) :=
  match fs with
  | none => none
  | some f =>
    match jsonUnmarshalKeyFile f with
    | .error _ => none
    | .ok keyf =>
      match configDecodeKey keyf.Priv with
      | .error _ => none
      | .ok privb =>
        match configDecodeKey keyf.Pub with
        | .error _ => none
        | .ok pubb =>
          match cryptoUnmarshalPriv privb with
          | .error _ => none
          | .ok priv =>
            match cryptoUnmarshalPub pubb with
            | .error _ => none
            | .ok pub => some (priv, pub)

/-- `getLPKeys(datadir)` (lines 213-292).  State passed explicitly: `fs` is
the current content of `datadir/keys.json` (`none` = absent or unreadable)
and `genResult` is the outcome of `crypto.GenerateKeyPair(crypto.RSA, 2048)`.
Returns the `(priv, pub, err)` result (`Except.error` = `ErrKeygen`) and the
content of `keys.json` afterwards.  The whole read chain runs only under
`if datadir != ""`; generation fires when `gen` was set or `priv`/`pub` were
never assigned; the freshly generated pair is written back (also only under
`if datadir != ""`) and returned. -/
def getLPKeys (datadir : String) (fs : Option FileContent)
    (genResult : Except Unit (PrivKey × PubKey)) :
    Except Unit (PrivKey × PubKey) × Option FileContent :=
  let loaded := if datadir ≠ "" then loadKeyFile fs else none
  match loaded with
  | some pq => (.ok pq, fs)
  | none =>
    match genResult with
    | .error _ => (.error (), fs)
    | .ok (p, q) =>
      if datadir ≠ "" then
        let kf : LPKeyFile :=
          { Pub := configEncodeKey (cryptoMarshalPub q),
            Priv := configEncodeKey (cryptoMarshalPriv p) }
        (.ok (p, q), some (jsonMarshalKeyFile kf))
      else
        (.ok (p, q), fs)

/-! ## Concrete environments used for evaluation. -/

/-- An environment where every collaborator succeeds: each transaction
resolves to a payload carrying its hash, the payload parses to stream
`"strm"` with the catalog tag `"P240p30fps16x9"`, and transcoding yields one
derived stream `"out0"`. -/
def envGood : ChainEnv :=
  { transactionByHash := fun h => .ok ⟨[h]⟩
    parseJobTxData := fun _ => (("strm", "P240p30fps16x9"), false)
    getInfoFromJobEvent := fun _ => (some 7, false)
    videoProfileLookup := fun t =>
      if t = "P240p30fps16x9" then some ⟨"P240p30fps16x9"⟩ else none
    transcode := fun _ => (["out0"], false)
    getNodeID := fun s => s }

/-- Like `envGood` but every `TransactionByHash` call fails (returning the
nil transaction). -/
def envTxFail : ChainEnv :=
  { envGood with transactionByHash := fun _ => .error () }

/-- Like `envGood` but `Transcode` fails for every profile, yielding no
derived streams. -/
def envTranscodeFail : ChainEnv :=
  { envGood with transcode := fun _ => ([], true) }

/-- Like `envGood` but the parsed profile tag is absent from the catalog. -/
def envNoProfile : ChainEnv :=
  { envGood with videoProfileLookup := fun _ => none }

/-- All `Transcode` invocations recorded across a list of handler traces. -/
def allTranscodeCalls (ts : List HandlerTrace) : List TranscodeConfig :=
  ts.foldr (fun t r => t.transcodeCalls ++ r) []

end Livepeer

namespace Livepeer

/-! ## Claims -/

/-- C7: the three chain-interaction timeout constants form a strictly
increasing chain: RPC timeout (10s) < event timeout (30s) <
mined-transaction timeout (60s). -/
theorem timeouts_strictly_increasing :
    EthRpcTimeout < EthEventTimeout ∧ EthEventTimeout < EthMinedTxTimeout := by
  decide

/-- C10: `setupTranscoder` always starts the reward manager loop with a
5-second interval and always makes the job-event subscription, whatever the
outcome of the initial active-transcoder and stake queries; those failures
are logged only and never abort setup. -/
theorem setupTranscoder_always_starts (env : SetupEnv) :
    (setupTranscoderStartup env).rewardManagerIntervalSeconds = some 5 ∧
    (setupTranscoderStartup env).subscribeAttempted = true ∧
    (setupTranscoderStartup env).aborted = false := by
  rcases h : env.isActiveTranscoder with u | b
  · simp [setupTranscoderStartup, h]
  · cases b <;> simp [setupTranscoderStartup, h]

/-- C1 (refuting evaluation): with two well-formed job events delivered, the
goroutine produces exactly one trace — that of the first event (transaction
hash 1, one transcode, one notification) — and never reads the second
event; the listener does not run until its context is cancelled. -/
theorem listener_single_shot :
    listenerRun envGood [⟨1⟩, ⟨2⟩] =
      [{ outcome := .ok, txLookups := [1],
         transcodeCalls := [{ StrmID := "strm", Profiles := [⟨"P240p30fps16x9"⟩],
                              PerformOnchainClaim := true, JobID := some 7 }],
         notifyCalls := [("strm", "strm", [("out0", ⟨"P240p30fps16x9"⟩)])] }] := by
  rfl

/-- C2 (evaluation at the failing input): when `Transcode` fails with no
derived streams, the handler does not abort the job cleanly — past the
logged error it indexes `strmIDs[0]` on the empty slice and faults; it never
reaches `NotifyBroadcaster`. -/
theorem transcode_failure_faults :
    (jobEventHandler envTranscodeFail ⟨3⟩).outcome = .panicIndex ∧
    (jobEventHandler envTranscodeFail ⟨3⟩).transcodeCalls =
      [{ StrmID := "strm", Profiles := [⟨"P240p30fps16x9"⟩],
         PerformOnchainClaim := true, JobID := some 7 }] ∧
    (jobEventHandler envTranscodeFail ⟨3⟩).notifyCalls = [] :=
  ⟨rfl, rfl, rfl⟩

/-- C3 (evaluation at the failing inputs): the handler does fault at
runtime on the error paths — a failed `TransactionByHash` leads to the
nil-transaction dereference in `tx.Data()`, and a failed `Transcode` leads
to the out-of-bounds index `strmIDs[0]`. -/
theorem handler_runtime_faults :
    (jobEventHandler envTxFail ⟨4⟩).outcome = .panicNilTx ∧
    (jobEventHandler envTranscodeFail ⟨5⟩).outcome = .panicIndex :=
  ⟨rfl, rfl⟩

/-- C4 (counterexample): on a transaction-resolution failure the event is
not retried — the handler performs a single resolution attempt, refuting
"retried with bounded backoff before being discarded". -/
theorem resolution_failure_not_retried :
    ¬ 2 ≤ (jobEventHandler envTxFail ⟨6⟩).txLookups.length := by
  decide

/-- C4 (amended): a transaction-resolution failure is reported once and the
event is never retried: the handler performs exactly one resolution attempt
per event, and on failure it faults on the nil transaction instead of
cleanly discarding the event. -/
theorem resolution_single_attempt (env : ChainEnv) (l : Log) :
    (jobEventHandler env l).txLookups = [l.txHash] ∧
    (env.transactionByHash l.txHash = .error () →
      (jobEventHandler env l).outcome = .panicNilTx) := by
  constructor
  · unfold jobEventHandler
    split
    · rfl
    · dsimp only
      split
      · rfl
      · split <;> rfl
  · intro h
    simp [jobEventHandler, h]

/-- C4 witness: the amended statement applied at a concrete failing
environment and event. -/
theorem resolution_single_attempt_witness :
    (jobEventHandler envTxFail ⟨7⟩).txLookups = [7] ∧
    (envTxFail.transactionByHash 7 = .error () →
      (jobEventHandler envTxFail ⟨7⟩).outcome = .panicNilTx) :=
  resolution_single_attempt envTxFail ⟨7⟩

/-- C5: an event whose transaction resolves but whose parsed profile tag is
not in the video-profile catalog is discarded after a single resolution
attempt with a reported error: the handler returns `core.ErrTranscode`,
invokes no `Transcode` and sends no notification. -/
theorem unknown_profile_discarded (env : ChainEnv) (l : Log) (tx : Tx)
    (htx : env.transactionByHash l.txHash = .ok tx)
    (hprof : env.videoProfileLookup (env.parseJobTxData tx.data).1.2 = none) :
    (jobEventHandler env l).outcome = .errTranscode ∧
    (jobEventHandler env l).transcodeCalls = [] ∧
    (jobEventHandler env l).notifyCalls = [] ∧
    (jobEventHandler env l).txLookups = [l.txHash] := by
  simp [jobEventHandler, htx, hprof]

/-- C5 witness: applied at a concrete environment whose catalog lookup
fails. -/
theorem unknown_profile_discarded_witness :
    (jobEventHandler envNoProfile ⟨8⟩).outcome = .errTranscode ∧
    (jobEventHandler envNoProfile ⟨8⟩).transcodeCalls = [] ∧
    (jobEventHandler envNoProfile ⟨8⟩).notifyCalls = [] ∧
    (jobEventHandler envNoProfile ⟨8⟩).txLookups = [8] :=
  unknown_profile_discarded envNoProfile ⟨8⟩ ⟨[8]⟩ rfl rfl

/-- C6: across any sequence of delivered events, at most one `Transcode`
execution exists for any given job ID: re-delivering a job ID never yields
a second execution. -/
theorem jobid_at_most_one_execution (env : ChainEnv) (events : List Log)
    (j : Option Int) :
    ((allTranscodeCalls (listenerRun env events)).filter
        (fun c => c.JobID = j)).length ≤ 1 := by
  cases events with
  | nil => simp [listenerRun, allTranscodeCalls]
  | cons l rest =>
    have h1 : (jobEventHandler env l).transcodeCalls.length ≤ 1 := by
      unfold jobEventHandler
      split
      · simp
      · dsimp only
        split
        · simp
        · split <;> simp
    calc ((allTranscodeCalls (listenerRun env (l :: rest))).filter
            (fun c => c.JobID = j)).length
        ≤ (allTranscodeCalls (listenerRun env (l :: rest))).length :=
          List.length_filter_le _ _
      _ = (jobEventHandler env l).transcodeCalls.length := by
          simp [listenerRun, allTranscodeCalls]
      _ ≤ 1 := h1

/-- C8: with a non-empty data directory and a key file which is absent,
unreadable, corrupt JSON or fails key decoding (`loadKeyFile fs = none`),
`getLPKeys` returns the freshly generated pair and persists it as the JSON
record of the two encoded fields; reloading from the resulting file returns
the same pair (ignoring the generator) and leaves the file untouched. -/
theorem getLPKeys_roundtrip (d : String) (hd : d ≠ "") (fs : Option FileContent)
    (hfs : loadKeyFile fs = none) (p : PrivKey) (q : PubKey)
    (g' : Except Unit (PrivKey × PubKey)) :
    getLPKeys d fs (.ok (p, q)) =
      (.ok (p, q), some (jsonMarshalKeyFile
        { Pub := configEncodeKey (cryptoMarshalPub q),
          Priv := configEncodeKey (cryptoMarshalPriv p) })) ∧
    getLPKeys d (getLPKeys d fs (.ok (p, q))).2 g' =
      (.ok (p, q), (getLPKeys d fs (.ok (p, q))).2) := by
  have hwrite : getLPKeys d fs (.ok (p, q)) =
      (.ok (p, q), some (jsonMarshalKeyFile
        { Pub := configEncodeKey (cryptoMarshalPub q),
          Priv := configEncodeKey (cryptoMarshalPriv p) })) := by
    simp [getLPKeys, hd, hfs]
  have hload : loadKeyFile (some (jsonMarshalKeyFile
      { Pub := configEncodeKey (cryptoMarshalPub q),
        Priv := configEncodeKey (cryptoMarshalPriv p) })) = some (p, q) := by
    simp [loadKeyFile, jsonMarshalKeyFile, jsonUnmarshalKeyFile,
      configDecodeKey, configEncodeKey, cryptoMarshalPriv, cryptoMarshalPub,
      cryptoUnmarshalPriv, cryptoUnmarshalPub]
  refine ⟨hwrite, ?_⟩
  rw [hwrite]
  simp [getLPKeys, hd, hload]

/-- C8 witness: the round trip applied at data directory `"data"`, a corrupt
key file, and a concrete generated pair. -/
theorem getLPKeys_roundtrip_witness :
    ("data" ≠ "") ∧ loadKeyFile (some (.other [9])) = none ∧
    (getLPKeys "data" (some (.other [9])) (.ok (⟨[4]⟩, ⟨[5]⟩)) =
      (.ok (⟨[4]⟩, ⟨[5]⟩), some (jsonMarshalKeyFile
        { Pub := configEncodeKey (cryptoMarshalPub ⟨[5]⟩),
          Priv := configEncodeKey (cryptoMarshalPriv ⟨[4]⟩) })) ∧
    getLPKeys "data"
        (getLPKeys "data" (some (.other [9])) (.ok (⟨[4]⟩, ⟨[5]⟩))).2 (.error ()) =
      (.ok (⟨[4]⟩, ⟨[5]⟩),
        (getLPKeys "data" (some (.other [9])) (.ok (⟨[4]⟩, ⟨[5]⟩))).2)) :=
  ⟨by decide, rfl,
    getLPKeys_roundtrip "data" (by decide) (some (.other [9])) rfl ⟨[4]⟩ ⟨[5]⟩ (.error ())⟩

/-- C9: with an empty data directory `getLPKeys` neither reads nor writes
the key file: the result is exactly the generated pair and the file content
is returned untouched, so two calls given distinct generated pairs return
distinct pairs. -/
theorem getLPKeys_empty_datadir (fs fs' : Option FileContent)
    (g g' : Except Unit (PrivKey × PubKey)) (hg : g ≠ g') :
    getLPKeys "" fs g = (g, fs) ∧
    (getLPKeys "" fs g).1 ≠ (getLPKeys "" fs' g').1 := by
  have h1 : ∀ (fs0 : Option FileContent) (g0 : Except Unit (PrivKey × PubKey)),
      getLPKeys "" fs0 g0 = (g0, fs0) := by
    intro fs0 g0
    rcases g0 with u | ⟨p, q⟩
    · rfl
    · rfl
  refine ⟨h1 fs g, ?_⟩
  rw [h1 fs g, h1 fs' g']
  simpa using hg

/-- C9 witness: two concrete calls with empty data directory and distinct
generated pairs. -/
theorem getLPKeys_empty_datadir_witness :
    getLPKeys "" none (.ok (⟨[1]⟩, ⟨[1]⟩)) = (.ok (⟨[1]⟩, ⟨[1]⟩), none) ∧
    (getLPKeys "" none (.ok (⟨[1]⟩, ⟨[1]⟩))).1 ≠
      (getLPKeys "" none (.ok (⟨[2]⟩, ⟨[2]⟩))).1 :=
  getLPKeys_empty_datadir none none _ _ (by simp)

end Livepeer
